import Mathlib

/-!
Verification development for the rivena-v4 repository.

Part 1 embeds the CORS middleware (`bun-cors.ts`): header lists with
`set`/`get` semantics, the `isOriginAllowed` rule matcher, `handleOrigin`,
`handleMethods`, `handlePreflight`, `applyCorsHeaders` and the `cors`
wrapper.

Part 2 embeds the client auth cache manager (`auth-service.ts`):
`loadCachedAuth`, `refreshAndCacheToken`, `scheduleTokenRefresh`,
`clearCachedAuth` and `handleSessionChange`, as explicit state passing over
an `AuthState` record together with a list of observable events.
-/

namespace Rivena

/-- A header map, modelled as an association list of (name, value) pairs in
insertion order.  `Headers.set` replaces the value of an existing name in
place, otherwise appends. -/
abbrev HeadersL := List (String × String)

/-- Models `headers.set(k, v)`: replace the entry named `k` if present, else append. -/
def hset : HeadersL → String → String → HeadersL
  | [], k, v => [(k, v)]
  | p :: rest, k, v => if p.1 == k then (k, v) :: rest else p :: hset rest k v

/-- Models `headers.get(k)`: the value of the first entry named `k`, or `none` when
the header is absent. -/
def hget (hs : HeadersL) (k : String) : Option String :=
  (hs.find? (fun p => p.1 == k)).map (fun p => p.2)

/-- An HTTP request: a method string and a header map. -/
structure Request where
  method : String
  headers : HeadersL

/-- An HTTP response: status, headers and an optional body. -/
structure Response where
  status : Nat
  headers : HeadersL
  body : Option String

/-- JavaScript `a || b` on a nullable string: `b` when `a` is null/absent or
the empty string (falsy), else the string itself. -/
def jsOr (o : Option String) (d : String) : String :=
  match o with
  | none => d
  | some s => if s == "" then d else s

/-- Truthiness filter for a nullable string: `none` for null/absent or `""`. -/
def jsTruthy (o : Option String) : Option String :=
  match o with
  | none => none
  | some s => if s == "" then none else some s

/-- JavaScript `hay.includes(needle)`: substring containment.
`hay.indexOf(needle) === -1` is the negation of this. -/
def jsIncludes (hay needle : String) : Bool :=
  decide (needle.toList <:+: hay.toList)

/-- An origin rule (`type Origin = string | RegExp | ((request) => boolean | void)`).
A RegExp is modelled by its test function on the origin string; a predicate
returns `boolean | void`, modelled as `Option Bool`. -/
inductive OriginRule where
  | str (s : String)
  | regex (test : String → Bool)
  | func (f : Request → Option Bool)

/-- The argument shape of `isOriginAllowed`: a single rule or an array. -/
inductive OriginArg where
  | one (r : OriginRule)
  | arr (rs : List OriginRule)

/-- The non-array branch of `isOriginAllowed`: a string with no `'://'`
matches by substring containment in the request origin, a string with
`'://'` by exact equality; a RegExp by pattern test; a function when it
returns exactly `true`. -/
def isOriginAllowedOne : OriginRule → Request → String → Bool
  | .str s, _, ro =>
      if jsIncludes s "://" = false then jsIncludes ro s else s == ro
  | .func f, req, _ => f req == some true
  | .regex t, _, ro => t ro

/-- Models `isOriginAllowed(origin, request, requestOrigin)` from bun-cors.ts:
an array matches when some element matches (`origin.some(...)`), a single
rule as in `isOriginAllowedOne`. -/
def isOriginAllowed : OriginArg → Request → String → Bool
  | .arr rs, req, ro => rs.any fun o => isOriginAllowedOne o req ro
  | .one r, req, ro => isOriginAllowedOne r req ro

/-- The `origin` configuration field: `Origin | boolean | Origin[]`. -/
inductive CorsOrigin where
  | flag (b : Bool)
  | one (r : OriginRule)
  | many (rs : List OriginRule)

/-- The `methods` configuration: `boolean | undefined | null | '' | '*' | string | string[]`. -/
inductive MethodsCfg where
  | bool (b : Bool)
  | undef
  | null
  | strVal (s : String)
  | arr (ss : List String)

/-- The `allowedHeaders` / `exposeHeaders` configuration: `true | string | string[]`. -/
inductive HeaderListCfg where
  | all
  | strVal (s : String)
  | arr (ss : List String)

/-- The CORS configuration with the source's defaults. -/
structure CORSConfig where
  origin : CorsOrigin := .flag true
  methods : MethodsCfg := .bool true
  allowedHeaders : HeaderListCfg := .all
  exposeHeaders : HeaderListCfg := .all
  credentials : Bool := true
  maxAge : Nat := 5
  preflight : Bool := true

/-- The normalized `origins` rule list; `undefined` for a boolean `origin`. -/
def originsOf : CorsOrigin → Option (List OriginRule)
  | .flag _ => none
  | .one r => some [r]
  | .many rs => some rs

/-- Models `anyOrigin = origins?.some(o => o === '*')` (falsy when `origins` is undefined). -/
def anyOrigin (o : CorsOrigin) : Bool :=
  match originsOf o with
  | none => false
  | some rs => rs.any fun r =>
      match r with
      | .str s => s == "*"
      | _ => false

/-- Models `processHeaders`: the comma-joined header names of a request. -/
def processHeaders (hs : HeadersL) : String :=
  String.intercalate ", " (hs.map (fun p => p.1))

/-- Models `handleOrigin(headers, request)`: origin resolution.  Allow-all echoes the
request Origin (or `*` when falsy) with `Vary: *`; a configured `'*'` rule
emits a static `*`; otherwise the first matching rule of a non-empty list
echoes the literal request origin with `Vary: Origin`; an empty/absent
request origin returns early; no match sets only `Vary: Origin`. -/
def handleOrigin (o : CorsOrigin) (hs : HeadersL) (req : Request) : HeadersL :=
  match o with
  | .flag true =>
      hset (hset hs "Vary" "*") "Access-Control-Allow-Origin"
        (jsOr (hget req.headers "Origin") "*")
  | _ =>
    if anyOrigin o then
      hset (hset hs "Vary" "*") "Access-Control-Allow-Origin" "*"
    else
      match originsOf o with
      | none => hs
      | some os =>
        if os.isEmpty then hs
        else
          let requestOrigin := (hget req.headers "Origin").getD ""
          if requestOrigin == "" then hs
          else
            match os.find? (fun r => isOriginAllowedOne r req requestOrigin) with
            | some _ =>
                hset (hset hs "Vary" "Origin") "Access-Control-Allow-Origin" requestOrigin
            | none => hset hs "Vary" "Origin"

/-- The precomputed `methodsValue` (arrays joined with `", "`). -/
def methodsValue : MethodsCfg → MethodsCfg
  | .arr ss => .strVal (String.intercalate ", " ss)
  | m => m

/-- Models `handleMethods(headers, method)`: returns early on a falsy method; `true`
echoes the method; falsy configs emit nothing; `'*'` emits `*`; otherwise the
joined `methodsValue` string. -/
def handleMethods (methods : MethodsCfg) (hs : HeadersL) (method : Option String) : HeadersL :=
  match jsTruthy method with
  | none => hs
  | some mv =>
    match methods with
    | .bool true => hset hs "Access-Control-Allow-Methods" mv
    | .bool false => hs
    | .undef => hs
    | .null => hs
    | .strVal s =>
        if s == "" then hs
        else if s == "*" then hset hs "Access-Control-Allow-Methods" "*"
        else hset hs "Access-Control-Allow-Methods" s
    | .arr ss =>
        hset hs "Access-Control-Allow-Methods" (String.intercalate ", " ss)

/-- The precomputed `allowedHeadersValue` / `exposeHeadersValue`. -/
def headerListValue : HeaderListCfg → HeaderListCfg
  | .arr ss => .strVal (String.intercalate ", " ss)
  | c => c

/-- Models `handlePreflight(request)`: builds the standalone 204 preflight response. -/
def handlePreflight (cfg : CORSConfig) (req : Request) : Response :=
  let hs : HeadersL := []
  let hs := handleOrigin cfg.origin hs req
  let hs := handleMethods cfg.methods hs (hget req.headers "Access-Control-Request-Method")
  let hs :=
    match headerListValue cfg.allowedHeaders with
    | .all =>
        match jsTruthy (hget req.headers "Access-Control-Request-Headers") with
        | some rh => hset hs "Access-Control-Allow-Headers" rh
        | none => hs
    | .strVal s => hset hs "Access-Control-Allow-Headers" s
    | .arr ss => hset hs "Access-Control-Allow-Headers" (String.intercalate ", " ss)
  let hs :=
    match headerListValue cfg.exposeHeaders with
    | .all => hset hs "Access-Control-Expose-Headers" (processHeaders req.headers)
    | .strVal s => hset hs "Access-Control-Expose-Headers" s
    | .arr ss => hset hs "Access-Control-Expose-Headers" (String.intercalate ", " ss)
  let hs := if cfg.credentials then hset hs "Access-Control-Allow-Credentials" "true" else hs
  let hs := if cfg.maxAge ≠ 0 then hset hs "Access-Control-Max-Age" (toString cfg.maxAge) else hs
  ⟨204, hs, none⟩

/-- Models `applyCorsHeaders(request, response)`: augments the downstream response's
headers with the CORS headers. -/
def applyCorsHeaders (cfg : CORSConfig) (req : Request) (resp : Response) : Response :=
  let hs := resp.headers
  let hs := handleOrigin cfg.origin hs req
  let hs := handleMethods cfg.methods hs (some req.method)
  let hs :=
    match headerListValue cfg.allowedHeaders with
    | .all => hset hs "Access-Control-Allow-Headers" (processHeaders req.headers)
    | .strVal s => hset hs "Access-Control-Allow-Headers" s
    | .arr ss => hset hs "Access-Control-Allow-Headers" (String.intercalate ", " ss)
  let hs :=
    match headerListValue cfg.exposeHeaders with
    | .all => hset hs "Access-Control-Expose-Headers" (processHeaders req.headers)
    | .strVal s => hset hs "Access-Control-Expose-Headers" s
    | .arr ss => hset hs "Access-Control-Expose-Headers" (String.intercalate ", " ss)
  let hs := if cfg.credentials then hset hs "Access-Control-Allow-Credentials" "true" else hs
  ⟨resp.status, hs, resp.body⟩

/-- The `cors(config)` wrapper applied to a downstream handler: intercepts
OPTIONS when preflight is enabled, else runs the handler and augments its
response. -/
def cors (cfg : CORSConfig) (handler : Request → Response) (req : Request) : Response :=
  if cfg.preflight && req.method == "OPTIONS" then handlePreflight cfg req
  else applyCorsHeaders cfg req (handler req)

/-! ### Part 2: the client auth cache manager (`auth-service.ts`)

State is threaded explicitly as an `AuthState` record: the in-memory
`cachedAuth`, the durable-storage entry under key `cached_auth` (JSON
serialization of the plain record round-trips, so the entry is modelled
structurally), the live one-shot refresh timer (the `refreshTimeout` handle;
a handle on which `clearTimeout` has run is dead, so only the live timer is
represented), and the external observable store's fields.  Observable
effects (dispatched `auth:change` events, logged errors, and the
asynchronous immediate-refresh call fired by `scheduleTokenRefresh` on a
non-positive delay, which performs no synchronous state mutation before its
first await) are returned as a list of `AuthEvent`s. -/

/-- The identity projection carried by a cached record. -/
structure User where
  id : String
  email : String
  name : String
deriving DecidableEq

/-- The persisted `CachedAuth` record `{jwt, user, expiresAt}` (milliseconds). -/
structure CachedAuth where
  jwt : String
  user : User
  expiresAt : Int
deriving DecidableEq

/-- A decoded JWT payload (`DecodedJwt`): identity claims plus `exp`/`iat`
in seconds since epoch. -/
structure DecodedJwt where
  id : String
  email : String
  name : String
  exp : Int
  iat : Int
deriving DecidableEq

/-- The mutable state of the `AuthService` singleton together with the
external observable store it synchronizes (modelled as plain fields; the
store's code is outside the embedded core). -/
structure AuthState where
  cachedAuth : Option CachedAuth
  storageCachedAuth : Option CachedAuth
  refreshTimeout : Option Int
  storeUser : Option User
  storeToken : Option String
  storeAuthenticated : Bool
  storeLoading : Bool
deriving DecidableEq

/-- Observable effects of an auth-service operation, in order. -/
inductive AuthEvent where
  | authChange (isAuthenticated : Bool)
  | errorLogged
  | refreshTriggered
deriving DecidableEq

/-- Outcome of `fetch('/api/auth/token')` followed by `response.json()`:
the fetch can reject, the response can be not-ok, the body can fail to
parse as `{ token }`, or a token string is obtained. -/
inductive TokenFetch where
  | fetchErr
  | notOk
  | badJson
  | ok (token : String)
deriving DecidableEq

/-- The environment a refresh runs in: the fetch outcome, the `jwtDecode`
function (`none` models a decode throw on a malformed token), and the
current time `Date.now()` in milliseconds. -/
structure RefreshEnv where
  fetchResult : TokenFetch
  jwtDecode : String → Option DecodedJwt
  now : Int

/-- Models `scheduleTokenRefresh(expiresAt)`: cancels any live timer
(`clearTimeout`), computes `refreshTime = expiresAt - Date.now() - 5*60*1000`;
arms a one-shot timer for exactly that delay when positive, otherwise fires
an immediate asynchronous refresh (emitted as `refreshTriggered`) without
arming a timer. -/
def scheduleTokenRefresh (s : AuthState) (expiresAt now : Int) : AuthState × List AuthEvent :=
  let s := { s with refreshTimeout := none }
  let refreshTime := expiresAt - now - 5 * 60 * 1000
  if refreshTime > 0 then
    ({ s with refreshTimeout := some refreshTime }, [])
  else
    (s, [.refreshTriggered])

/-- Models `refreshAndCacheToken()`: on a successful fetch and decode, stores the
record in memory and durable storage, reschedules the refresh timer, stores
the token in the external store and emits `auth:change(true)`; any failure
is caught, logged, and leaves the state untouched. -/
def refreshAndCacheToken (s : AuthState) (env : RefreshEnv) : AuthState × List AuthEvent :=
  match env.fetchResult with
  | .fetchErr => (s, [.errorLogged])
  | .notOk => (s, [.errorLogged])
  | .badJson => (s, [.errorLogged])
  | .ok token =>
    match env.jwtDecode token with
    | none => (s, [.errorLogged])
    | some d =>
      let expiresAt := d.exp * 1000
      let cached : CachedAuth := ⟨token, ⟨d.id, d.email, d.name⟩, expiresAt⟩
      let s1 := { s with cachedAuth := some cached, storageCachedAuth := some cached }
      let r := scheduleTokenRefresh s1 expiresAt env.now
      ({ r.1 with storeToken := some token }, r.2 ++ [.authChange true])

/-- A refresh execution that fails: the fetch rejects, the response is
not ok, the body is not `{ token }`, or `jwtDecode` throws on the token. -/
def refreshFailure (env : RefreshEnv) : Prop :=
  env.fetchResult = .fetchErr ∨ env.fetchResult = .notOk ∨ env.fetchResult = .badJson
  ∨ ∃ t, env.fetchResult = .ok t ∧ env.jwtDecode t = none

/-- Models `loadCachedAuth()`: reads the persisted record; adopts it and schedules
a refresh when `expiresAt > Date.now()`, otherwise removes the expired
entry from storage. -/
def loadCachedAuth (s : AuthState) (now : Int) : AuthState × List AuthEvent :=
  match s.storageCachedAuth with
  | none => (s, [])
  | some auth =>
      if auth.expiresAt > now then
        scheduleTokenRefresh { s with cachedAuth := some auth } auth.expiresAt now
      else
        ({ s with storageCachedAuth := none }, [])

/-- Models `clearCachedAuth()`: drops the in-memory record, removes the storage
entry, logs out the external store, and cancels any pending refresh timer. -/
def clearCachedAuth (s : AuthState) : AuthState × List AuthEvent :=
  ({ s with
      cachedAuth := none
      storageCachedAuth := none
      storeUser := none
      storeToken := none
      storeAuthenticated := false
      refreshTimeout := none }, [])

/-- A session signal `{ data: { user } | null, isPending }` as delivered by
the session-observation subscription (`session` itself may be null). -/
structure SessionSignal where
  data : Option User
  isPending : Bool

/-- Models `handleSessionChange(session)`: an authenticated user triggers
`refreshAndCacheToken` and a store update; a non-null, non-pending signal
with `data === null` is a definitive logout that clears the cache and emits
`auth:change(false)`; anything else only updates the loading flag. -/
def handleSessionChange (s : AuthState) (session : Option SessionSignal) (env : RefreshEnv) :
    AuthState × List AuthEvent :=
  match session with
  | some sig =>
    match sig.data with
    | some u =>
        let r := refreshAndCacheToken s env
        ({ r.1 with storeUser := some u, storeAuthenticated := true, storeLoading := false }, r.2)
    | none =>
        if !sig.isPending then
          let r := clearCachedAuth s
          ({ r.1 with storeLoading := false }, r.2 ++ [.authChange false])
        else
          ({ s with storeLoading := sig.isPending }, [])
  | none => ({ s with storeLoading := false }, [])

/-- A freshly constructed service state over a given storage content:
nothing cached in memory, no live timer, the store empty. -/
def initialAuthState (storage : Option CachedAuth) : AuthState :=
  { cachedAuth := none
    storageCachedAuth := storage
    refreshTimeout := none
    storeUser := none
    storeToken := none
    storeAuthenticated := false
    storeLoading := true }

/-! ### Helper lemmas -/

/-- Setting a header and reading it back yields the value just set. -/
theorem hget_hset_self (hs : HeadersL) (k v : String) : hget (hset hs k v) k = some v := by
  induction hs with
  | nil => simp [hset, hget]
  | cons p rest ih =>
      by_cases h : p.1 == k
      · simp [hset, h, hget]
      · simp only [hset, h, Bool.false_eq_true, if_false]
        simpa [hget, List.find?_cons, h] using ih

/-- Setting one header leaves the others unchanged. -/
theorem hget_hset_ne (hs : HeadersL) (k k' v : String) (h : k ≠ k') :
    hget (hset hs k' v) k = hget hs k := by
  induction hs with
  | nil =>
      have hk : (k' == k) = false := by
        rw [beq_eq_false_iff_ne]
        exact Ne.symm h
      simp [hset, hget, List.find?, hk]
  | cons p rest ih =>
      by_cases hp : p.1 == k'
      · have hpk : (p.1 == k) = false := by
          rw [beq_iff_eq] at hp
          simp [hp, Ne.symm h]
        simp [hset, hp, hget, List.find?, hpk, Ne.symm h]
      · simp only [hset, hp, Bool.false_eq_true, if_false]
        by_cases hk : p.1 == k
        · simp [hget, List.find?, hk]
        · simpa [hget, List.find?, hk] using ih

/-- The operation `scheduleTokenRefresh` only touches the timer: the in-memory cache is kept. -/
theorem scheduleTokenRefresh_cachedAuth (s : AuthState) (e n : Int) :
    (scheduleTokenRefresh s e n).1.cachedAuth = s.cachedAuth := by
  simp only [scheduleTokenRefresh]
  split <;> rfl

/-- The operation `scheduleTokenRefresh` only touches the timer: durable storage is kept. -/
theorem scheduleTokenRefresh_storage (s : AuthState) (e n : Int) :
    (scheduleTokenRefresh s e n).1.storageCachedAuth = s.storageCachedAuth := by
  simp only [scheduleTokenRefresh]
  split <;> rfl

/-! ### Claim theorems -/

/-- C1: for every request carrying an Origin header and every configured
string origin rule, a rule without the scheme separator `'://'` matches
exactly when the request's Origin value contains the rule as a substring
anywhere, and a rule containing `'://'` matches exactly when the Origin
value equals the rule character for character. -/
theorem C1_string_rule_matching (req : Request) (ro rule : String)
    (_h : hget req.headers "Origin" = some ro) :
    isOriginAllowed (.one (.str rule)) req ro = true ↔
      (if "://".toList <:+: rule.toList then rule = ro
       else rule.toList <:+: ro.toList) := by
  by_cases hsep : "://".toList <:+: rule.toList
  · simp [isOriginAllowed, isOriginAllowedOne, jsIncludes, hsep]
  · simp [isOriginAllowed, isOriginAllowedOne, jsIncludes, hsep]

/-- Witness for C1 at a concrete request, origin and bare-domain rule. -/
theorem C1_string_rule_matching_witness :
    isOriginAllowed (.one (.str "example.com"))
        ⟨"GET", [("Origin", "https://app.example.com")]⟩ "https://app.example.com" = true ↔
      (if "://".toList <:+: "example.com".toList then "example.com" = "https://app.example.com"
       else "example.com".toList <:+: "https://app.example.com".toList) :=
  C1_string_rule_matching ⟨"GET", [("Origin", "https://app.example.com")]⟩
    "https://app.example.com" "example.com" (by decide)

/-- C2: for every request with method OPTIONS and preflight enabled, the
wrapped middleware returns the standalone preflight response with status
204 and the downstream handler is never invoked (the result is the same
whatever handler is wrapped). -/
theorem C2_preflight_short_circuit (cfg : CORSConfig) (handler : Request → Response)
    (req : Request) (hp : cfg.preflight = true) (hm : req.method = "OPTIONS") :
    cors cfg handler req = handlePreflight cfg req
    ∧ (cors cfg handler req).status = 204
    ∧ ∀ handler2 : Request → Response, cors cfg handler2 req = cors cfg handler req := by
  have hc : (cfg.preflight && req.method == "OPTIONS") = true := by
    simp [hp, hm]
  refine ⟨by simp [cors, hc], ?_, fun handler2 => by simp [cors, hc]⟩
  simp only [cors, hc, if_true]
  rfl

/-- Witness for C2 at the default configuration with a concrete handler. -/
theorem C2_preflight_short_circuit_witness :
    (cors {} (fun _ => ⟨200, [], none⟩) ⟨"OPTIONS", []⟩).status = 204 :=
  (C2_preflight_short_circuit {} (fun _ => ⟨200, [], none⟩) ⟨"OPTIONS", []⟩ rfl rfl).2.1

/-- C3 counterexample: with the allow-all origin policy, a request whose
Origin header is present but empty is answered with `*`, not with the
verbatim (empty) Origin value: the claim's "verbatim when present" fails on
a present-but-empty Origin header, because the code coalesces every falsy
Origin with `||`. -/
theorem C3_allow_all_empty_origin_counterexample :
    hget ((⟨"GET", [("Origin", "")]⟩ : Request).headers) "Origin" = some ""
    ∧ hget (handleOrigin (.flag true) [] ⟨"GET", [("Origin", "")]⟩)
        "Access-Control-Allow-Origin" = some "*"
    ∧ ("*" : String) ≠ "" := by
  refine ⟨by decide, by decide, by decide⟩

/-- C3 amended: with the allow-all origin policy, the emitted
Access-Control-Allow-Origin equals the request's Origin header verbatim
when that header is present and non-empty, and equals `*` when it is
absent or empty. -/
theorem C3_allow_all_origin_echo (req : Request) (hs : HeadersL) :
    (∀ o : String, hget req.headers "Origin" = some o → o ≠ "" →
        hget (handleOrigin (.flag true) hs req) "Access-Control-Allow-Origin" = some o)
    ∧ ((hget req.headers "Origin" = none ∨ hget req.headers "Origin" = some "") →
        hget (handleOrigin (.flag true) hs req) "Access-Control-Allow-Origin" = some "*") := by
  constructor
  · intro o ho hne
    simp [handleOrigin, jsOr, ho, hne, hget_hset_self]
  · rintro (ho | ho) <;> simp [handleOrigin, jsOr, ho, hget_hset_self]

/-- Witness for the amended C3 at a concrete request with a non-empty Origin. -/
theorem C3_allow_all_origin_echo_witness :
    hget (handleOrigin (.flag true) [] ⟨"GET", [("Origin", "https://a.example")]⟩)
      "Access-Control-Allow-Origin" = some "https://a.example" :=
  (C3_allow_all_origin_echo ⟨"GET", [("Origin", "https://a.example")]⟩ []).1
    "https://a.example" (by decide) (by decide)

/-- C4 counterexample: with a non-empty rule list and no `'*'` entry, a
request that carries no Origin header at all produces no headers
whatsoever — in particular no `Vary: Origin` — because `handleOrigin`
returns early on a falsy request origin.  The claim's "always contain
Vary: Origin (including when the request carries no Origin header)" fails. -/
theorem C4_no_origin_header_counterexample :
    hget (handleOrigin (.many [.str "example.com"]) [] ⟨"GET", []⟩) "Vary" = none
    ∧ hget (handleOrigin (.many [.str "example.com"]) [] ⟨"GET", []⟩)
        "Access-Control-Allow-Origin" = none := by
  refine ⟨by decide, by decide⟩

/-- C4 amended: with a non-empty origin rule list containing no `'*'`
entry, when the request carries a non-empty Origin value and no rule
matches it, the produced headers contain no Access-Control-Allow-Origin
and do contain `Vary: Origin`; when the request carries no (or an empty)
Origin header the evaluation emits no headers at all. -/
theorem C4_unmatched_origin_vary (os : List OriginRule)
    (hne : os ≠ [])
    (hstar : ∀ r ∈ os, r ≠ OriginRule.str "*") :
    (∀ (req : Request) (ro : String),
        hget req.headers "Origin" = some ro → ro ≠ "" →
        (∀ r ∈ os, isOriginAllowedOne r req ro = false) →
        hget (handleOrigin (.many os) [] req) "Access-Control-Allow-Origin" = none
        ∧ hget (handleOrigin (.many os) [] req) "Vary" = some "Origin")
    ∧ (∀ req : Request,
        hget req.headers "Origin" = none ∨ hget req.headers "Origin" = some "" →
        handleOrigin (.many os) [] req = []) := by
  have hany : anyOrigin (.many os) = false := by
    unfold anyOrigin originsOf
    rw [List.any_eq_false]
    intro r hr
    cases r with
    | str s =>
        have hr2 := hstar _ hr
        simp only [beq_iff_eq]
        intro hcon
        exact hr2 (by rw [hcon])
    | regex t => simp
    | func f => simp
  have hemp : os.isEmpty = false := by
    cases os with
    | nil => exact absurd rfl hne
    | cons a l => rfl
  constructor
  · intro req ro horig hro hnomatch
    have hfind : os.find? (fun r => isOriginAllowedOne r req ro) = none :=
      List.find?_eq_none.mpr (fun r hr => by simp [hnomatch r hr])
    have hred : handleOrigin (.many os) [] req = hset [] "Vary" "Origin" := by
      unfold handleOrigin
      simp [hany, originsOf, hemp, horig, hro, hfind]
    rw [hred]
    refine ⟨by decide, by decide⟩
  · intro req ho
    unfold handleOrigin
    rcases ho with ho | ho <;> simp [hany, originsOf, hemp, ho]

/-- Witness for the amended C4: the unmatched branch at a concrete request
carrying a non-matching Origin, and the no-header branch at a concrete
request carrying no Origin header. -/
theorem C4_unmatched_origin_vary_witness :
    (hget (handleOrigin (.many [.str "example.com"]) []
        ⟨"GET", [("Origin", "https://evil.org")]⟩) "Access-Control-Allow-Origin" = none
    ∧ hget (handleOrigin (.many [.str "example.com"]) []
        ⟨"GET", [("Origin", "https://evil.org")]⟩) "Vary" = some "Origin")
    ∧ handleOrigin (.many [.str "example.com"]) [] ⟨"GET", []⟩ = [] :=
  ⟨(C4_unmatched_origin_vary [.str "example.com"]
      (by simp)
      (by
        intro r hr
        rw [List.mem_singleton] at hr
        subst hr
        intro hcon
        injection hcon with h2
        exact absurd h2 (by decide))).1
    ⟨"GET", [("Origin", "https://evil.org")]⟩ "https://evil.org" (by decide) (by decide)
    (by
      intro r hr
      rw [List.mem_singleton] at hr
      subst hr
      decide),
   (C4_unmatched_origin_vary [.str "example.com"]
      (by simp)
      (by
        intro r hr
        rw [List.mem_singleton] at hr
        subst hr
        intro hcon
        injection hcon with h2
        exact absurd h2 (by decide))).2
    ⟨"GET", []⟩ (Or.inl (by decide))⟩

/-- C10: an origin rule equal to the empty string contains no `'://'` and
is a substring of every request origin, so it matches every request whose
Origin value is non-empty, and configuring `['']` echoes every such origin
back in Access-Control-Allow-Origin. -/
theorem C10_empty_string_rule_matches_all (req : Request) (ro : String)
    (horig : hget req.headers "Origin" = some ro) (hro : ro ≠ "") :
    isOriginAllowedOne (.str "") req ro = true
    ∧ hget (handleOrigin (.many [.str ""]) [] req) "Access-Control-Allow-Origin" = some ro := by
  have hmatch : isOriginAllowedOne (.str "") req ro = true := by
    have h1 : jsIncludes "" "://" = false := by decide
    have h2 : jsIncludes ro "" = true := by
      unfold jsIncludes
      simp
    simp [isOriginAllowedOne, h1, h2]
  refine ⟨hmatch, ?_⟩
  have hred : handleOrigin (.many [.str ""]) [] req
      = hset (hset [] "Vary" "Origin") "Access-Control-Allow-Origin" ro := by
    unfold handleOrigin
    simp [anyOrigin, originsOf, horig, hro, List.find?, hmatch]
  rw [hred, hget_hset_self]

/-- Witness for C10 at a concrete request origin. -/
theorem C10_empty_string_rule_matches_all_witness :
    isOriginAllowedOne (.str "") ⟨"GET", [("Origin", "https://a.example")]⟩
        "https://a.example" = true
    ∧ hget (handleOrigin (.many [.str ""]) [] ⟨"GET", [("Origin", "https://a.example")]⟩)
        "Access-Control-Allow-Origin" = some "https://a.example" :=
  C10_empty_string_rule_matches_all ⟨"GET", [("Origin", "https://a.example")]⟩
    "https://a.example" (by decide) (by decide)

/-- C5: for every expiry instant, `scheduleTokenRefresh` computes the delay
`expiresAt - now - 5*60*1000`; when positive it arms a one-shot timer for
exactly that delay, and when zero or negative no timer is armed and a
refresh is triggered immediately. -/
theorem C5_schedule_refresh_delay (s : AuthState) (expiresAt now : Int) :
    (scheduleTokenRefresh s expiresAt now).1.refreshTimeout
        = (if expiresAt - now - 5 * 60 * 1000 > 0
           then some (expiresAt - now - 5 * 60 * 1000) else none)
    ∧ (scheduleTokenRefresh s expiresAt now).2
        = (if expiresAt - now - 5 * 60 * 1000 > 0
           then [] else [AuthEvent.refreshTriggered]) := by
  by_cases h : (300000 : Int) < expiresAt - now <;>
    simp [scheduleTokenRefresh, h]

/-- C6 counterexample: with an expiry that is not more than five minutes in
the future, calling `scheduleTokenRefresh` twice in succession leaves zero
live timers, not exactly one — each call takes the immediate-refresh branch
and arms nothing. -/
theorem C6_double_schedule_counterexample :
    (scheduleTokenRefresh (scheduleTokenRefresh (initialAuthState none) 0 0).1 0 0).1.refreshTimeout
      = none := by decide

/-- C6 amended: each call cancels any previously armed timer before arming
a new one, so the timer is a single slot and at most one is live; calling
`scheduleTokenRefresh` twice in succession with the same expiry is
idempotent on the state, leaving exactly one live timer when the computed
delay is positive and none when it is not. -/
theorem C6_single_live_timer (s : AuthState) (expiresAt now : Int) :
    (scheduleTokenRefresh (scheduleTokenRefresh s expiresAt now).1 expiresAt now).1
        = (scheduleTokenRefresh s expiresAt now).1
    ∧ (scheduleTokenRefresh (scheduleTokenRefresh s expiresAt now).1 expiresAt now).1.refreshTimeout
        = (if expiresAt - now - 5 * 60 * 1000 > 0
           then some (expiresAt - now - 5 * 60 * 1000) else none) := by
  by_cases h : (300000 : Int) < expiresAt - now <;>
    simp [scheduleTokenRefresh, h]

/-- C7: every execution of `refreshAndCacheToken` in which the token fetch
fails or the fetched token fails to decode leaves the cached record, the
durable-storage entry, and the pending refresh timer — indeed the whole
state — exactly as they were, and only logs the error. -/
theorem C7_refresh_failure_preserves_state (s : AuthState) (env : RefreshEnv)
    (h : refreshFailure env) :
    refreshAndCacheToken s env = (s, [AuthEvent.errorLogged]) := by
  rcases h with h | h | h | ⟨t, h1, h2⟩
  · simp [refreshAndCacheToken, h]
  · simp [refreshAndCacheToken, h]
  · simp [refreshAndCacheToken, h]
  · simp [refreshAndCacheToken, h1, h2]

/-- Witness for C7 at a concrete failing fetch. -/
theorem C7_refresh_failure_preserves_state_witness :
    refreshAndCacheToken (initialAuthState none)
        ⟨TokenFetch.fetchErr, fun _ => none, 0⟩
      = (initialAuthState none, [AuthEvent.errorLogged]) :=
  C7_refresh_failure_preserves_state (initialAuthState none)
    ⟨TokenFetch.fetchErr, fun _ => none, 0⟩ (Or.inl rfl)

/-- C8: a successful refresh persists the record `{jwt, user, expiresAt}`
to durable storage; re-running `loadCachedAuth` on a freshly constructed
state over that storage adopts the identical record when its expiry is
still in the future, and removes it from storage leaving the in-memory
cache empty when it is not. -/
theorem C8_storage_roundtrip (s : AuthState) (env : RefreshEnv) (token : String)
    (d : DecodedJwt) (now2 : Int)
    (hf : env.fetchResult = TokenFetch.ok token)
    (hd : env.jwtDecode token = some d) :
    (refreshAndCacheToken s env).1.storageCachedAuth
        = some ⟨token, ⟨d.id, d.email, d.name⟩, d.exp * 1000⟩
    ∧ (d.exp * 1000 > now2 →
        (loadCachedAuth (initialAuthState (refreshAndCacheToken s env).1.storageCachedAuth)
            now2).1.cachedAuth
          = some ⟨token, ⟨d.id, d.email, d.name⟩, d.exp * 1000⟩
        ∧ (loadCachedAuth (initialAuthState (refreshAndCacheToken s env).1.storageCachedAuth)
            now2).1.storageCachedAuth
          = some ⟨token, ⟨d.id, d.email, d.name⟩, d.exp * 1000⟩)
    ∧ (¬ d.exp * 1000 > now2 →
        (loadCachedAuth (initialAuthState (refreshAndCacheToken s env).1.storageCachedAuth)
            now2).1.cachedAuth = none
        ∧ (loadCachedAuth (initialAuthState (refreshAndCacheToken s env).1.storageCachedAuth)
            now2).1.storageCachedAuth = none) := by
  have hstor : (refreshAndCacheToken s env).1.storageCachedAuth
      = some ⟨token, ⟨d.id, d.email, d.name⟩, d.exp * 1000⟩ := by
    simp [refreshAndCacheToken, hf, hd, scheduleTokenRefresh_storage]
  refine ⟨hstor, fun hlt => ?_, fun hge => ?_⟩
  · rw [hstor]
    constructor
    · simp [loadCachedAuth, initialAuthState, hlt, scheduleTokenRefresh_cachedAuth]
    · simp [loadCachedAuth, initialAuthState, hlt, scheduleTokenRefresh_storage]
  · rw [hstor]
    constructor <;> simp [loadCachedAuth, initialAuthState, hge]

/-- Witness for C8 at a concrete token whose decoded expiry is in the future. -/
theorem C8_storage_roundtrip_witness :
    ((1000 : Int) * 1000 > 0)
    ∧ (loadCachedAuth
          (initialAuthState
            (refreshAndCacheToken (initialAuthState none)
              ⟨TokenFetch.ok "tok", fun _ => some ⟨"i", "e", "n", 1000, 0⟩, 0⟩).1.storageCachedAuth)
          0).1.cachedAuth
        = some ⟨"tok", ⟨"i", "e", "n"⟩, 1000 * 1000⟩ :=
  ⟨by decide,
    ((C8_storage_roundtrip (initialAuthState none)
        ⟨TokenFetch.ok "tok", fun _ => some ⟨"i", "e", "n", 1000, 0⟩, 0⟩
        "tok" ⟨"i", "e", "n", 1000, 0⟩ 0 rfl rfl).2.1 (by decide)).1⟩

/-- C9: after any pending signal, a session signal that is non-null, not
pending and carries no authenticated user clears the cached record from
memory and durable storage, cancels any pending refresh timer, and
dispatches exactly one `auth:change` event with `isAuthenticated = false`. -/
theorem C9_definitive_logout_clears (s : AuthState) (env : RefreshEnv) (p : SessionSignal)
    (hp : p.isPending = true) (hd : p.data = none) :
    (handleSessionChange (handleSessionChange s (some p) env).1
        (some ⟨none, false⟩) env).1.cachedAuth = none
    ∧ (handleSessionChange (handleSessionChange s (some p) env).1
        (some ⟨none, false⟩) env).1.storageCachedAuth = none
    ∧ (handleSessionChange (handleSessionChange s (some p) env).1
        (some ⟨none, false⟩) env).1.refreshTimeout = none
    ∧ (handleSessionChange (handleSessionChange s (some p) env).1
        (some ⟨none, false⟩) env).2 = [AuthEvent.authChange false] := by
  have _ := hp
  have _ := hd
  refine ⟨?_, ?_, ?_, ?_⟩ <;> simp [handleSessionChange, clearCachedAuth]

/-- Witness for C9 at a concrete pending-then-logout signal sequence. -/
theorem C9_definitive_logout_clears_witness :
    (handleSessionChange
        (handleSessionChange (initialAuthState none)
          (some ⟨none, true⟩) ⟨TokenFetch.fetchErr, fun _ => none, 0⟩).1
        (some ⟨none, false⟩) ⟨TokenFetch.fetchErr, fun _ => none, 0⟩).1.cachedAuth = none
    ∧ (handleSessionChange
        (handleSessionChange (initialAuthState none)
          (some ⟨none, true⟩) ⟨TokenFetch.fetchErr, fun _ => none, 0⟩).1
        (some ⟨none, false⟩) ⟨TokenFetch.fetchErr, fun _ => none, 0⟩).1.storageCachedAuth = none
    ∧ (handleSessionChange
        (handleSessionChange (initialAuthState none)
          (some ⟨none, true⟩) ⟨TokenFetch.fetchErr, fun _ => none, 0⟩).1
        (some ⟨none, false⟩) ⟨TokenFetch.fetchErr, fun _ => none, 0⟩).1.refreshTimeout = none
    ∧ (handleSessionChange
        (handleSessionChange (initialAuthState none)
          (some ⟨none, true⟩) ⟨TokenFetch.fetchErr, fun _ => none, 0⟩).1
        (some ⟨none, false⟩) ⟨TokenFetch.fetchErr, fun _ => none, 0⟩).2
        = [AuthEvent.authChange false] :=
  C9_definitive_logout_clears (initialAuthState none)
    ⟨TokenFetch.fetchErr, fun _ => none, 0⟩ ⟨none, true⟩ rfl rfl

end Rivena
